import Mathlib

/-!
Shallow embedding of the WeatherApp TypeScript repository
(models `Location.ts`, `Notification.ts`, `Weather.ts` and the
`StorageService` list-level operations), together with theorems settling
the specification claims C1 to C10.

Modelling conventions:
* JS numbers are modelled as rationals; JS machine integers (unix
  timestamps, hours) as integers.
* JS exceptions are modelled with `Except`: a constructor that throws is a
  function into `Except String _`, a caught exception is an `Except.error`
  that the catching code turns into its documented fallback value.
* Nondeterministic inputs of the code (wall-clock `Date.now()`,
  `Math.random()` suffixes, the current time inside `getDailyForecast`)
  are passed as explicit parameters.
* A JS `Date`, as used by the code, is only ever consulted through
  `toDateString()` (the local calendar date) and `getHours()` (the local
  hour); we model both from the unix timestamp and an explicit timezone
  offset in seconds.
-/

namespace WeatherApp

/-- JS `String.prototype.trim`: strip leading and trailing whitespace. -/
def jsTrim (s : String) : String :=
  String.mk ((((s.data.dropWhile Char.isWhitespace).reverse).dropWhile Char.isWhitespace).reverse)

/-- Lower-case a single ASCII character, as `toLowerCase` does on the
condition names appearing in this code base. -/
def jsCharLower (c : Char) : Char :=
  if 'A' ≤ c ∧ c ≤ 'Z' then Char.ofNat (c.toNat + 32) else c

/-- JS `String.prototype.toLowerCase` restricted to ASCII data. -/
def jsToLower (s : String) : String := String.mk (s.data.map jsCharLower)

/-- JS `Math.round`: round half toward positive infinity. -/
def jsMathRound (q : ℚ) : ℤ := ⌊q + 1/2⌋

/-- JS array indexing with a possibly negative integer index: a negative
index (and any out-of-range index) yields `undefined`, modelled `none`. -/
def jsArrayGet (l : List String) (i : ℤ) : Option String :=
  if i < 0 then none else l.get? i.toNat

/-- JS `Number.prototype.toFixed(4)` followed by `Number(...)`: round to 4
decimal places, ties away from zero. -/
def toFixed4 (q : ℚ) : ℚ :=
  if q < 0 then -(((⌊(-q) * 10000 + 1/2⌋ : ℤ) : ℚ) / 10000)
  else ((⌊q * 10000 + 1/2⌋ : ℤ) : ℚ) / 10000

/-- Local calendar date (the equivalence class that JS `toDateString`
exposes) of a unix timestamp, given a timezone offset in seconds. -/
def localDay (tz dt : ℤ) : ℤ := Int.ediv (dt + tz) 86400

/-- Local hour of day (JS `Date.prototype.getHours`) of a unix timestamp,
given a timezone offset in seconds. -/
def localHour (tz dt : ℤ) : ℤ := Int.ediv (Int.emod (dt + tz) 86400) 3600

/-- The identity key of a `Location`. In the source it is the string
interpolation of the two 4-decimal-rounded coordinates with an underscore
between them; since the decimal rendering of JS numbers is injective, we
model the key as the pair of the rounded coordinates. -/
structure LocationId where
  lat : ℚ
  lon : ℚ
deriving DecidableEq

/-- The `Location` class: the fields stored by its constructor.
The `createdAt` timestamp is not modelled; no claim reads it. -/
structure Location where
  id : LocationId
  name : String
  country : String
  lat : ℚ
  lon : ℚ
deriving DecidableEq

/-- The `LocationData` storage record produced by `Location.toJSON`. -/
structure LocationData where
  name : String
  country : String
  lat : ℚ
  lon : ℚ
deriving DecidableEq

/-- The `Location` constructor: validates, trims the name and country,
rounds the coordinates to 4 decimals and derives the identity key. -/
def mkLocation (name country : String) (lat lon : ℚ) : Except String Location :=
  if jsTrim name = "" then .error "Location name cannot be empty"
  else if jsTrim country = "" then .error "Country cannot be empty"
  else if lat < -90 ∨ 90 < lat then .error "Latitude must be between -90 and 90 degrees"
  else if lon < -180 ∨ 180 < lon then .error "Longitude must be between -180 and 180 degrees"
  else .ok { id := ⟨toFixed4 lat, toFixed4 lon⟩, name := jsTrim name,
             country := jsTrim country, lat := toFixed4 lat, lon := toFixed4 lon }

/-- The `Location.toJSON` storage serialization. -/
def locationToJSON (l : Location) : LocationData :=
  ⟨l.name, l.country, l.lat, l.lon⟩

/-- The `Location.fromData` static factory: re-runs the constructor on the
stored record. -/
def locationFromData (d : LocationData) : Except String Location :=
  mkLocation d.name d.country d.lat d.lon

/-- The `Location.equals` method: compares the identity keys. -/
def locEquals (a b : Location) : Bool := decide (a.id = b.id)

/-- The `StorageService.addFavorite` operation at the list level: skip the
insertion when a favorite with the same identity key is already present. -/
def addFavorite (favs : List Location) (loc : Location) : List Location :=
  if favs.any (fun f => decide (f.id = loc.id)) then favs else favs ++ [loc]

/-- A stored notification rule (clause). The `condition` is a string at
runtime (the TS union type does not exist after compilation), the optional
threshold `value` models `number | undefined`. -/
structure NotificationRule where
  condition : String
  value : Option ℚ
deriving DecidableEq

/-- The list of condition kinds accepted by `validateRule`. -/
def validConditions : List String :=
  ["temperature_above", "temperature_below", "rain", "snow", "thunderstorm", "clear"]

/-- The private `Notification.validateRule` method. -/
def validateRule (r : NotificationRule) : Except String Unit :=
  if ¬ (r.condition ∈ validConditions) then
    .error ("Invalid notification condition: " ++ r.condition)
  else if r.condition = "temperature_above" ∨ r.condition = "temperature_below" then
    match r.value with
    | none => .error "Temperature condition requires a value"
    | some v =>
      if v < -50 ∨ 60 < v then
        .error "Temperature value must be between -50 and 60 degrees Celsius"
      else .ok ()
  else .ok ()

/-- The validation loop of the `Notification` constructor: validate each
rule in order, propagating the first failure. -/
def validateRules : List NotificationRule → Except String Unit
  | [] => .ok ()
  | r :: rs =>
    match validateRule r with
    | .error e => .error e
    | .ok _ => validateRules rs

/-- The identity key of a `Notification`: in the source the string
interpolation of the location id, `Date.now()` and a random base-36
suffix; modelled as the triple. -/
structure NotifId where
  locId : LocationId
  ts : ℤ
  rand : String
deriving DecidableEq

/-- The `Notification` class: the fields stored by its constructor. -/
structure Notification where
  id : NotifId
  location : Location
  rules : List NotificationRule
  isActive : Bool
  createdAt : ℤ
deriving DecidableEq

/-- The `Notification` constructor. The wall-clock timestamp and the
random suffix that the source draws from `Date.now()` and `Math.random()`
are explicit parameters. -/
def mkNotification (location : Option Location) (rules : List NotificationRule)
    (nowTs : ℤ) (rand : String) : Except String Notification :=
  match location with
  | none => .error "Location is required for notification"
  | some loc =>
    if rules = [] then .error "At least one notification rule is required"
    else
      match validateRules rules with
      | .error e => .error e
      | .ok _ => .ok { id := ⟨loc.id, nowTs, rand⟩, location := loc, rules := rules,
                       isActive := true, createdAt := nowTs }

/-- One element of the `weather` condition array of an API payload; only
its `main` field is read by the matching code. -/
structure WeatherConditionItem where
  main : String
deriving DecidableEq

/-- The `main` metrics block of an API payload; only `temp` is read by the
matching code (the remaining numeric metrics are never consulted by the
operations under verification). -/
structure MainBlock where
  temp : ℚ
deriving DecidableEq

/-- A possibly malformed weather payload as `matchesCondition` may receive
it: the `main` block and the `weather` condition list can be absent, and
the optional `rain` and `snow` blocks are modelled by their JS truthiness. -/
structure RawWeatherPayload where
  main : Option MainBlock
  weather : Option (List WeatherConditionItem)
  rain : Bool
  snow : Bool
deriving DecidableEq

/-- The private `Notification.checkSingleRule` method. Reading a field of
an absent block throws, modelled by `Except.error`; the `default` branch of
the switch returns `false`. -/
def checkSingleRule (rule : NotificationRule) (w : RawWeatherPayload) : Except Unit Bool :=
  if rule.condition = "temperature_above" then
    match w.main with
    | none => .error ()
    | some m => .ok (decide (rule.value.getD 0 < m.temp))
  else if rule.condition = "temperature_below" then
    match w.main with
    | none => .error ()
    | some m => .ok (decide (m.temp < rule.value.getD 0))
  else if rule.condition = "rain" then
    match w.weather with
    | none => .error ()
    | some ws => .ok (ws.any (fun c => decide (jsToLower c.main = "rain")) || w.rain)
  else if rule.condition = "snow" then
    match w.weather with
    | none => .error ()
    | some ws => .ok (ws.any (fun c => decide (jsToLower c.main = "snow")) || w.snow)
  else if rule.condition = "thunderstorm" then
    match w.weather with
    | none => .error ()
    | some ws => .ok (ws.any (fun c => decide (jsToLower c.main = "thunderstorm")))
  else if rule.condition = "clear" then
    match w.weather with
    | none => .error ()
    | some ws => .ok (ws.any (fun c => decide (jsToLower c.main = "clear")))
  else .ok false

/-- The rule loop inside `Notification.matchesCondition`, together with the
surrounding try/catch: a thrown access error anywhere aborts the whole loop
and yields `false`; a rule that evaluates to `true` short-circuits. A
`none` payload means the JS argument was `null`, so the first field access
of the first rule throws. -/
def runRules (w : Option RawWeatherPayload) : List NotificationRule → Bool
  | [] => false
  | r :: rs =>
    match w with
    | none => false
    | some p =>
      match checkSingleRule r p with
      | .error _ => false
      | .ok true => true
      | .ok false => runRules w rs

/-- The public `Notification.matchesCondition` method: an inactive
notification never matches; otherwise run the rules under the try/catch. -/
def matchesCondition (n : Notification) (w : Option RawWeatherPayload) : Bool :=
  if n.isActive = false then false else runRules w n.rules

/-- The `NotificationData` storage record produced by
`Notification.toJSON`. -/
structure NotificationData where
  id : NotifId
  location : LocationData
  rules : List NotificationRule
  isActive : Bool
  createdAt : ℤ
deriving DecidableEq

/-- The `Notification.toJSON` storage serialization: it persists the id,
the serialized location, a copy of the rules, the active flag and the
creation time. -/
def notifToJSON (n : Notification) : NotificationData :=
  ⟨n.id, locationToJSON n.location, n.rules, n.isActive, n.createdAt⟩

/-- The `Notification.fromData` static factory: rebuild the location, run
the constructor on the stored rules (which draws a fresh timestamp and
random suffix for the id), then restore the stored active flag. The stored
`id` and `createdAt` fields are never read. -/
def notifFromData (d : NotificationData) (nowTs : ℤ) (rand : String) :
    Except String Notification :=
  match locationFromData d.location with
  | .error e => .error e
  | .ok loc =>
    match mkNotification (some loc) d.rules nowTs rand with
    | .error e => .error e
    | .ok n => .ok { n with isActive := d.isActive }

/-- The `StorageService.updateNotification` operation at the list level:
locate the notification by id, build a brand-new `Notification` from its
location and the new rules (fresh id from the supplied timestamp and
random suffix), restore the old active flag, and replace it in place. Any
exception is caught and rethrown as a fixed failure message. -/
def updateNotification (notifs : List Notification) (nid : NotifId)
    (rules : List NotificationRule) (nowTs : ℤ) (rand : String) :
    Except String (List Notification) :=
  match notifs.findIdx? (fun n => decide (n.id = nid)) with
  | none => .error "Failed to update notification"
  | some i =>
    match notifs.get? i with
    | none => .error "Failed to update notification"
    | some old =>
      match mkNotification (some old.location) rules nowTs rand with
      | .error _ => .error "Failed to update notification"
      | .ok newN =>
        .ok (notifs.set i (if old.isActive then newN else { newN with isActive := false }))

/-- One entry of the forecast payload entry list; the bucketing algorithm
reads only its timestamp and moves the entry wholesale, so a single
payload field (`temp`) stands for the remaining data. -/
structure ForecastItem where
  dt : ℤ
  temp : ℚ
deriving DecidableEq

/-- The city block of a forecast payload. -/
structure ForecastCity where
  name : String
  country : String
deriving DecidableEq

/-- A possibly malformed forecast API payload: the entry list can be
absent. -/
structure ForecastPayload where
  list : Option (List ForecastItem)
  city : ForecastCity
deriving DecidableEq

/-- The `Forecast` class: the fields stored by its constructor. -/
structure Forecast where
  items : List ForecastItem
  city : String
  country : String
deriving DecidableEq

/-- The `Forecast` constructor: rejects a null payload, an absent entry
list and an empty entry list. -/
def mkForecast (data : Option ForecastPayload) : Except String Forecast :=
  match data with
  | none => .error "Invalid forecast data provided"
  | some d =>
    match d.list with
    | none => .error "Invalid forecast data provided"
    | some l =>
      if l = [] then .error "Invalid forecast data provided"
      else .ok ⟨l, d.city.name, d.city.country⟩

/-- The loop body of `Forecast.getDailyForecast`. The accumulator mirrors
the `dailyForecasts` array and `processed` mirrors the `processedDates`
set of date strings (insertion order kept). The guard of the fallback
branch re-parses each processed date string and compares its date string
with the current one; since parsing a `toDateString` output and taking
`toDateString` again is the identity, that inner comparison is modelled as
equality of the two date values. -/
def dailyLoop (tz nowDay : ℤ) :
    List ForecastItem → List ForecastItem → List ℤ → List ForecastItem
  | [], acc, _ => acc
  | item :: rest, acc, processed =>
    let d := localDay tz item.dt
    let h := localHour tz item.dt
    if acc.length = 0 ∧ d = nowDay ∧ h < 6 then
      dailyLoop tz nowDay rest acc processed
    else
      let step :=
        if ¬ (d ∈ processed) then
          if 9 ≤ h ∧ h ≤ 18 then (acc ++ [item], processed ++ [d])
          else if processed.length = 0 ∨ ¬ (processed.any (fun pd => decide (pd = d))) then
            (acc ++ [item], processed ++ [d])
          else (acc, processed)
        else (acc, processed)
      if 5 ≤ step.1.length then step.1 else dailyLoop tz nowDay rest step.1 step.2

/-- The `Forecast.getDailyForecast` method. The timezone offset and the
wall-clock time of the call (the source's `new Date()`) are explicit
parameters. -/
def getDailyForecast (tz now : ℤ) (f : Forecast) : List ForecastItem :=
  dailyLoop tz (localDay tz now) f.items [] []

/-- The 16 compass labels of `Weather.getWindDirection`. -/
def compassDirections : List String :=
  ["N", "NNE", "NE", "ENE", "E", "ESE", "SE", "SSE",
   "S", "SSW", "SW", "WSW", "W", "WNW", "NW", "NNW"]

/-- The index computation of `Weather.getWindDirection`:
`Math.round(deg / 22.5) % 16` with the JS remainder (sign of the
dividend, modelled by `Int.tmod`). -/
def windIndex (deg : ℚ) : ℤ := Int.tmod (jsMathRound (deg / 22.5)) 16

/-- The `Weather.getWindDirection` method on the stored wind direction:
an out-of-range (in particular negative) index yields `undefined`. -/
def getWindDirection (deg : ℚ) : Option String :=
  jsArrayGet compassDirections (windIndex deg)

/-! Helper lemmas about the numeric primitives. -/

/-- Floor evaluation by squeezing. -/
theorem floor_eq_of (q : ℚ) (n : ℤ) (h1 : (n : ℚ) ≤ q) (h2 : q < n + 1) : ⌊q⌋ = n := by
  rw [Int.floor_eq_iff]
  · exact ⟨h1, by exact_mod_cast h2⟩

/-- Rounding to 4 decimals fixes every integer. -/
theorem toFixed4_intCast (n : ℤ) : toFixed4 (n : ℚ) = n := by
  rw [toFixed4]
  by_cases h : (n : ℚ) < 0
  · rw [if_pos h]
    have hf : ⌊(-(n : ℚ)) * 10000 + 1/2⌋ = -n * 10000 := by
      apply floor_eq_of <;> push_cast <;> norm_num
    rw [hf]; push_cast; ring
  · rw [if_neg h]
    have hf : ⌊(n : ℚ) * 10000 + 1/2⌋ = n * 10000 := by
      apply floor_eq_of <;> push_cast <;> norm_num
    rw [hf]; push_cast; ring

/-- Rounding to 4 decimals fixes zero. -/
theorem toFixed4_zero : toFixed4 (0 : ℚ) = 0 := by
  have h := toFixed4_intCast 0
  norm_num at h
  exact h

/-- A successfully constructed location has the shape the constructor
builds: trimmed strings, rounded coordinates, key derived from them. -/
theorem mkLocation_ok_shape (name country : String) (lat lon : ℚ) (L : Location)
    (h : mkLocation name country lat lon = .ok L) :
    L = ⟨⟨toFixed4 lat, toFixed4 lon⟩, jsTrim name, jsTrim country, toFixed4 lat, toFixed4 lon⟩ := by
  rw [mkLocation] at h
  split_ifs at h
  exact (Except.ok.injEq _ _ ▸ h).symm

/-- A successfully constructed notification has the shape the constructor
builds: fresh id, active, rules as given. -/
theorem mkNotification_ok_shape (loc : Location) (rules : List NotificationRule)
    (nowTs : ℤ) (rand : String) (n : Notification)
    (h : mkNotification (some loc) rules nowTs rand = .ok n) :
    n = ⟨⟨loc.id, nowTs, rand⟩, loc, rules, true, nowTs⟩ := by
  rw [mkNotification] at h
  split at h
  · exact absurd h (by simp)
  · split at h
    · exact absurd h (by simp)
    · exact (Except.ok.injEq _ _ ▸ h).symm

/-- The constructor's validation loop fails as soon as some rule in the
list fails validation. -/
theorem validateRules_error_of_mem (rules : List NotificationRule)
    (r : NotificationRule) (e : String) (hmem : r ∈ rules)
    (hr : validateRule r = .error e) : ∃ e2, validateRules rules = .error e2 := by
  induction rules with
  | nil => cases hmem
  | cons a rest ih =>
    rcases List.mem_cons.1 hmem with h | h
    · subst h
      exact ⟨e, by rw [validateRules, hr]⟩
    · rw [validateRules]
      cases hva : validateRule a with
      | error e3 => exact ⟨e3, rfl⟩
      | ok u => exact ih h

/-! Sample data shared by several concrete evaluations. -/

/-- The location the constructor builds from the raw input
("London", "GB", 0, 0); the coordinate 0 is already rounded. -/
def locLondonZero : Location := ⟨⟨0, 0⟩, "London", "GB", 0, 0⟩

/-- A location with the same coordinates but different name and country. -/
def locParisZero : Location := ⟨⟨0, 0⟩, "Paris", "FR", 0, 0⟩

/-- Constructor evaluation for the London sample. -/
theorem mkLocation_london : mkLocation "London" "GB" 0 0 = .ok locLondonZero := by
  rw [mkLocation, if_neg (by decide), if_neg (by decide), if_neg (by decide),
    if_neg (by decide), toFixed4_zero]
  exact congrArg Except.ok (by decide)

/-- Constructor evaluation for the Paris sample. -/
theorem mkLocation_paris : mkLocation "Paris" "FR" 0 0 = .ok locParisZero := by
  rw [mkLocation, if_neg (by decide), if_neg (by decide), if_neg (by decide),
    if_neg (by decide), toFixed4_zero]
  exact congrArg Except.ok (by decide)

/-! Claim C10: the wind-direction compass index. -/

/-- Claim C10, counterexample to the claim as stated: the claim's
parenthetical says that for negative degrees the computed index is
negative, but at degree -5 the index is round(-5 / 22.5) mod 16 =
round(-0.22...) mod 16 = 0, which is in bounds and yields the label N. -/
theorem C10_negative_degree_in_bounds :
    windIndex (-5) = 0 ∧ getWindDirection (-5) = some "N" := by
  have hr : jsMathRound ((-5 : ℚ) / 22.5) = 0 := by
    rw [jsMathRound]; apply floor_eq_of <;> norm_num
  have hi : windIndex (-5) = 0 := by rw [windIndex, hr]; decide
  exact ⟨hi, by rw [getWindDirection, hi]; decide⟩

/-- Claim C10 (amended): for every nonnegative wind direction the compass
index round(deg / 22.5) mod 16 lies in the interval from 0 to 15 and the
lookup returns one of the 16 compass labels. Nonnegativity is sufficient
but not necessary: some negative degrees (such as -5) still give index 0,
while others (such as -45, whose index is -2) make the lookup go out of
bounds and return undefined. -/
theorem C10_wind_direction_index_bounds :
    (∀ deg : ℚ, 0 ≤ deg →
      0 ≤ windIndex deg ∧ windIndex deg < 16 ∧
      ∃ s, getWindDirection deg = some s ∧ s ∈ compassDirections) ∧
    (windIndex (-45) = -2 ∧ getWindDirection (-45) = none) := by
  constructor
  · intro deg hdeg
    have hround : 0 ≤ jsMathRound (deg / 22.5) := by
      rw [jsMathRound]
      exact Int.floor_nonneg.2 (by positivity)
    have heq : windIndex deg = jsMathRound (deg / 22.5) % 16 := by
      rw [windIndex, Int.tmod_eq_emod hround (by norm_num)]
    have h0 : 0 ≤ windIndex deg := by
      rw [heq]; exact Int.emod_nonneg _ (by norm_num)
    have h16 : windIndex deg < 16 := by
      rw [heq]; exact Int.emod_lt_of_pos _ (by norm_num)
    refine ⟨h0, h16, ?_⟩
    have hlen : (windIndex deg).toNat < compassDirections.length := by
      have : (windIndex deg).toNat < 16 := by omega
      simpa [compassDirections] using this
    refine ⟨compassDirections.get ⟨(windIndex deg).toNat, hlen⟩, ?_, List.get_mem _ _ _⟩
    rw [getWindDirection, jsArrayGet, if_neg (by omega)]
    exact List.get?_eq_get hlen
  · have hr : jsMathRound ((-45 : ℚ) / 22.5) = -2 := by
      rw [jsMathRound]; apply floor_eq_of <;> norm_num
    have hi : windIndex (-45) = -2 := by rw [windIndex, hr]; decide
    exact ⟨hi, by rw [getWindDirection, hi]; decide⟩

/-- Claim C10, witness: the amended theorem applied at degree 0. -/
theorem C10_wind_direction_witness :
    0 ≤ (0 : ℚ) ∧
    (0 ≤ windIndex 0 ∧ windIndex 0 < 16 ∧
      ∃ s, getWindDirection 0 = some s ∧ s ∈ compassDirections) :=
  ⟨le_refl 0, C10_wind_direction_index_bounds.1 0 (le_refl 0)⟩

/-! Claim C8: strict temperature thresholds. -/

/-- Claim C8 (confirmed): an active rule whose single clause is
temperature_above(v) matches a well-formed payload exactly when the
current temperature is strictly greater than v, and temperature_below(v)
exactly when it is strictly less than v; a temperature equal to the
threshold matches neither. -/
theorem C8_strict_temperature_thresholds :
    ∀ (nA nB : Notification) (v : ℚ) (p : RawWeatherPayload) (m : MainBlock),
    nA.isActive = true → nA.rules = [⟨"temperature_above", some v⟩] →
    nB.isActive = true → nB.rules = [⟨"temperature_below", some v⟩] →
    p.main = some m →
    (matchesCondition nA (some p) = decide (v < m.temp) ∧
     matchesCondition nB (some p) = decide (m.temp < v) ∧
     (m.temp = v → matchesCondition nA (some p) = false ∧
        matchesCondition nB (some p) = false)) := by
  intro nA nB v p m hA hAr hB hBr hp
  have habove : matchesCondition nA (some p) = decide (v < m.temp) := by
    rw [matchesCondition, hA, if_neg (by simp), hAr]
    by_cases hvm : v < m.temp
    · simp [runRules, checkSingleRule, hp, hvm]
    · simp [runRules, checkSingleRule, hp, hvm]
  have hbelow : matchesCondition nB (some p) = decide (m.temp < v) := by
    rw [matchesCondition, hB, if_neg (by simp), hBr]
    by_cases hvm : m.temp < v
    · simp [runRules, checkSingleRule, hp, hvm]
    · simp [runRules, checkSingleRule, hp, hvm]
  refine ⟨habove, hbelow, fun hev => ⟨?_, ?_⟩⟩
  · rw [habove, hev]; simp
  · rw [hbelow, hev]; simp

/-- Claim C8, witness: the theorem applied to two concrete notifications
with threshold 20 and a payload at temperature 25. -/
theorem C8_strict_temperature_witness :
    (Notification.mk ⟨⟨0, 0⟩, 1000, "a"⟩ locLondonZero
        [⟨"temperature_above", some 20⟩] true 1000).isActive = true ∧
    (Notification.mk ⟨⟨0, 0⟩, 1000, "a"⟩ locLondonZero
        [⟨"temperature_above", some 20⟩] true 1000).rules =
      [⟨"temperature_above", some 20⟩] ∧
    (Notification.mk ⟨⟨0, 0⟩, 1001, "b"⟩ locLondonZero
        [⟨"temperature_below", some 20⟩] true 1001).isActive = true ∧
    (Notification.mk ⟨⟨0, 0⟩, 1001, "b"⟩ locLondonZero
        [⟨"temperature_below", some 20⟩] true 1001).rules =
      [⟨"temperature_below", some 20⟩] ∧
    (RawWeatherPayload.mk (some ⟨25⟩) (some []) false false).main = some ⟨25⟩ ∧
    (matchesCondition (Notification.mk ⟨⟨0, 0⟩, 1000, "a"⟩ locLondonZero
        [⟨"temperature_above", some 20⟩] true 1000)
        (some (RawWeatherPayload.mk (some ⟨25⟩) (some []) false false)) =
      decide ((20 : ℚ) < (25 : ℚ)) ∧
     matchesCondition (Notification.mk ⟨⟨0, 0⟩, 1001, "b"⟩ locLondonZero
        [⟨"temperature_below", some 20⟩] true 1001)
        (some (RawWeatherPayload.mk (some ⟨25⟩) (some []) false false)) =
      decide ((25 : ℚ) < (20 : ℚ)) ∧
     ((25 : ℚ) = (20 : ℚ) →
       matchesCondition (Notification.mk ⟨⟨0, 0⟩, 1000, "a"⟩ locLondonZero
          [⟨"temperature_above", some 20⟩] true 1000)
          (some (RawWeatherPayload.mk (some ⟨25⟩) (some []) false false)) = false ∧
       matchesCondition (Notification.mk ⟨⟨0, 0⟩, 1001, "b"⟩ locLondonZero
          [⟨"temperature_below", some 20⟩] true 1001)
          (some (RawWeatherPayload.mk (some ⟨25⟩) (some []) false false)) = false)) :=
  ⟨rfl, rfl, rfl, rfl, rfl,
    C8_strict_temperature_thresholds _ _ 20 _ ⟨25⟩ rfl rfl rfl rfl rfl⟩

/-! Claim C6: constructor validation of notification rules. -/

/-- Claim C6 (confirmed): constructing a notification with a null
location, an empty clause list, a temperature clause whose value is
absent or outside the interval from -50 to 60, or a clause whose
condition is not one of the six allowed kinds, always fails; the
`Except.error` result carries no notification, so nothing partially
constructed is observable. -/
theorem C6_constructor_validation :
    (∀ rules nowTs rand, ∃ e, mkNotification none rules nowTs rand = .error e) ∧
    (∀ loc nowTs rand, ∃ e, mkNotification (some loc) [] nowTs rand = .error e) ∧
    (∀ loc rules nowTs rand r, r ∈ rules →
      (r.condition = "temperature_above" ∨ r.condition = "temperature_below") →
      (r.value = none ∨ (∃ v, r.value = some v ∧ (v < -50 ∨ 60 < v))) →
      ∃ e, mkNotification (some loc) rules nowTs rand = .error e) ∧
    (∀ loc rules nowTs rand r, r ∈ rules → r.condition ∉ validConditions →
      ∃ e, mkNotification (some loc) rules nowTs rand = .error e) := by
  refine ⟨fun rules nowTs rand => ⟨_, rfl⟩, fun loc nowTs rand => ⟨_, rfl⟩, ?_, ?_⟩
  · intro loc rules nowTs rand r hmem hcond hval
    have hin : r.condition ∈ validConditions := by
      rcases hcond with h | h <;> rw [h] <;> decide
    have hbad : ∃ e, validateRule r = .error e := by
      rw [validateRule, if_neg (by simpa using hin), if_pos hcond]
      rcases hval with h | ⟨v, hv, hrange⟩
      · rw [h]; exact ⟨_, rfl⟩
      · rw [hv]
        exact ⟨"Temperature value must be between -50 and 60 degrees Celsius",
          by simp [hrange]⟩
    obtain ⟨e, he⟩ := hbad
    obtain ⟨e2, he2⟩ := validateRules_error_of_mem rules r e hmem he
    refine ⟨e2, ?_⟩
    simp only [mkNotification]
    rw [if_neg (List.ne_nil_of_mem hmem), he2]
  · intro loc rules nowTs rand r hmem hnc
    have hbad : validateRule r =
        .error ("Invalid notification condition: " ++ r.condition) := by
      rw [validateRule, if_pos (by simpa using hnc)]
    obtain ⟨e2, he2⟩ := validateRules_error_of_mem rules r _ hmem hbad
    refine ⟨e2, ?_⟩
    simp only [mkNotification]
    rw [if_neg (List.ne_nil_of_mem hmem), he2]

/-- Claim C6, witness: the four failure modes at concrete inputs — a null
location, an empty rule list, an out-of-range temperature threshold of
100, and the unknown condition kind "fog". -/
theorem C6_constructor_validation_witness :
    (∃ e, mkNotification none [⟨"rain", none⟩] 0 "r" = .error e) ∧
    (∃ e, mkNotification (some locLondonZero) [] 0 "r" = .error e) ∧
    ((⟨"temperature_above", some 100⟩ : NotificationRule) ∈
        [(⟨"temperature_above", some 100⟩ : NotificationRule)] ∧
      ∃ e, mkNotification (some locLondonZero)
        [⟨"temperature_above", some 100⟩] 0 "r" = .error e) ∧
    ((⟨"fog", none⟩ : NotificationRule) ∈ [(⟨"fog", none⟩ : NotificationRule)] ∧
      ("fog" : String) ∉ validConditions ∧
      ∃ e, mkNotification (some locLondonZero) [⟨"fog", none⟩] 0 "r" = .error e) :=
  ⟨C6_constructor_validation.1 _ 0 "r",
   C6_constructor_validation.2.1 locLondonZero 0 "r",
   ⟨List.mem_singleton.2 rfl,
    C6_constructor_validation.2.2.1 locLondonZero _ 0 "r" _
      (List.mem_singleton.2 rfl) (Or.inl rfl)
      (Or.inr ⟨100, rfl, Or.inr (by norm_num)⟩)⟩,
   ⟨List.mem_singleton.2 rfl, by decide,
    C6_constructor_validation.2.2.2 locLondonZero _ 0 "r" _
      (List.mem_singleton.2 rfl) (by decide)⟩⟩

/-! Claim C5: matching against malformed payloads. -/

/-- On a payload whose main block and condition list are both absent,
every single-rule check either throws (absent-field access) or returns
false (the default switch branch for an unknown condition). -/
theorem checkSingleRule_malformed (r : NotificationRule) (p : RawWeatherPayload)
    (hm : p.main = none) (hw : p.weather = none) :
    checkSingleRule r p = .error () ∨ checkSingleRule r p = .ok false := by
  rw [checkSingleRule]
  split_ifs <;> simp [hm, hw]

/-- A null payload never matches: the loop body throws on first access
and the catch returns false (or the rule list is empty). -/
theorem runRules_none (rules : List NotificationRule) : runRules none rules = false := by
  cases rules <;> rfl

/-- A payload with neither main block nor condition list never matches. -/
theorem runRules_malformed (p : RawWeatherPayload) (hm : p.main = none)
    (hw : p.weather = none) (rules : List NotificationRule) :
    runRules (some p) rules = false := by
  induction rules with
  | nil => rfl
  | cons r rs ih =>
    rcases checkSingleRule_malformed r p hm hw with h | h <;>
      simp [runRules, h, ih]

/-- A sample notification with the single clause `rain`, bound to the
London sample location. -/
def notifRain : Notification :=
  ⟨⟨⟨0, 0⟩, 1000, "abc"⟩, locLondonZero, [⟨"rain", none⟩], true, 1000⟩

/-- A payload that lacks the main-metrics block but still carries a
weather condition list reporting rain. -/
def payloadNoMain : RawWeatherPayload := ⟨none, some [⟨"Rain"⟩], false, false⟩

/-- A payload that lacks both the main-metrics block and the condition
list. -/
def payloadEmpty : RawWeatherPayload := ⟨none, none, false, false⟩

/-- Claim C5, counterexample to the claim as stated: the claim says a
payload lacking the main-metrics block makes matches return false, but an
active rain rule still matches such a payload when its condition list
reports rain, because the evaluated clause only reads fields that are
present. -/
theorem C5_partially_malformed_payload_still_matches :
    payloadNoMain.main = none ∧
    matchesCondition notifRain (some payloadNoMain) = true := by
  exact ⟨rfl, by decide⟩

/-- Claim C5 (amended): matches never propagates a failure — a null
payload yields false, and a payload missing every block that the clauses
read yields false, each access failure being swallowed by the
try/catch. A payload that is only partially malformed can however still
match through a clause that reads only the present fields. -/
theorem C5_matches_swallows_failures :
    (∀ n, matchesCondition n none = false) ∧
    (∀ n p, p.main = none → p.weather = none →
      matchesCondition n (some p) = false) := by
  constructor
  · intro n
    rw [matchesCondition]
    split_ifs
    · rfl
    · exact runRules_none n.rules
  · intro n p hm hw
    rw [matchesCondition]
    split_ifs
    · rfl
    · exact runRules_malformed p hm hw n.rules

/-- Claim C5, witness: the amended theorem applied to the sample rain
notification, the null payload and the fully field-less payload. -/
theorem C5_matches_witness :
    matchesCondition notifRain none = false ∧
    (payloadEmpty.main = none ∧ payloadEmpty.weather = none ∧
      matchesCondition notifRain (some payloadEmpty) = false) :=
  ⟨C5_matches_swallows_failures.1 notifRain,
   rfl, rfl, C5_matches_swallows_failures.2 notifRain payloadEmpty rfl rfl⟩

/-! Claim C9: location equality is determined by the rounded coordinates. -/

/-- Claim C9 (confirmed): for validly constructed locations, equals holds
exactly when the 4-decimal-rounded latitudes and longitudes agree — the
name and country play no role — and addFavorite refuses to add a location
whose rounded coordinates match a stored favorite, whatever its name and
country. -/
theorem C9_equality_by_rounded_coordinates :
    ∀ (n1 c1 : String) (la1 lo1 : ℚ) (n2 c2 : String) (la2 lo2 : ℚ) (L1 L2 : Location),
    mkLocation n1 c1 la1 lo1 = .ok L1 → mkLocation n2 c2 la2 lo2 = .ok L2 →
    ((locEquals L1 L2 = true ↔
        (toFixed4 la1 = toFixed4 la2 ∧ toFixed4 lo1 = toFixed4 lo2)) ∧
     (∀ favs, L1 ∈ favs → toFixed4 la1 = toFixed4 la2 → toFixed4 lo1 = toFixed4 lo2 →
        addFavorite favs L2 = favs)) := by
  intro n1 c1 la1 lo1 n2 c2 la2 lo2 L1 L2 h1 h2
  have e1 := mkLocation_ok_shape _ _ _ _ _ h1
  have e2 := mkLocation_ok_shape _ _ _ _ _ h2
  subst e1
  subst e2
  constructor
  · simp [locEquals, LocationId.mk.injEq]
  · intro favs hmem hla hlo
    rw [addFavorite, if_pos]
    rw [List.any_eq_true]
    exact ⟨_, hmem, by simp [hla, hlo]⟩

/-- Claim C9, witness: London and Paris samples sharing the rounded
coordinates (0, 0); the favorites list holding the London location
rejects the Paris one. -/
theorem C9_equality_witness :
    mkLocation "London" "GB" 0 0 = .ok locLondonZero ∧
    mkLocation "Paris" "FR" 0 0 = .ok locParisZero ∧
    ((locEquals locLondonZero locParisZero = true ↔
        (toFixed4 0 = toFixed4 0 ∧ toFixed4 0 = toFixed4 0)) ∧
     (∀ favs, locLondonZero ∈ favs → toFixed4 0 = toFixed4 0 → toFixed4 0 = toFixed4 0 →
        addFavorite favs locParisZero = favs)) ∧
    addFavorite [locLondonZero] locParisZero = [locLondonZero] :=
  ⟨mkLocation_london, mkLocation_paris,
   C9_equality_by_rounded_coordinates "London" "GB" 0 0 "Paris" "FR" 0 0 _ _
     mkLocation_london mkLocation_paris,
   (C9_equality_by_rounded_coordinates "London" "GB" 0 0 "Paris" "FR" 0 0 _ _
     mkLocation_london mkLocation_paris).2 [locLondonZero]
     (List.mem_singleton.2 rfl) rfl rfl⟩

/-! Claim C1: the storage round-trip of notifications. -/

/-- The notification built by the constructor from the London sample
location and a single rain clause, at timestamp 1000 with random suffix
"abc". -/
def notifSample : Notification :=
  ⟨⟨⟨0, 0⟩, 1000, "abc"⟩, locLondonZero, [⟨"rain", none⟩], true, 1000⟩

/-- The notification that `fromData` reconstructs from the stored record
of `notifSample` when the reconstruction happens at timestamp 2000 with
random suffix "def": same location, rules and active state, fresh id. -/
def notifSampleRT : Notification :=
  ⟨⟨⟨0, 0⟩, 2000, "def"⟩, locLondonZero, [⟨"rain", none⟩], true, 2000⟩

/-- Claim C1 (code bug): serializing a notification with toJSON persists
its id, but fromData rebuilds the entity through the constructor, which
generates a fresh id from the reconstruction-time clock and a fresh
random suffix and never reads the stored id. The round-trip preserves the
location, the clause data and the active state, but the reconstructed
entity is not equal to the original by id — contradicting the claim, the
spec, and the StorageService tests that remove and update stored
notifications by their previously returned id. -/
theorem C1_fromData_regenerates_notification_id :
    mkNotification (some locLondonZero) [⟨"rain", none⟩] 1000 "abc" = .ok notifSample ∧
    notifFromData (notifToJSON notifSample) 2000 "def" = .ok notifSampleRT ∧
    notifSampleRT.location = notifSample.location ∧
    notifSampleRT.rules = notifSample.rules ∧
    notifSampleRT.isActive = notifSample.isActive ∧
    notifSampleRT.id ≠ notifSample.id := by
  refine ⟨rfl, ?_, rfl, rfl, rfl, by decide⟩
  simp only [notifFromData]
  rw [show locationFromData (notifToJSON notifSample).location = Except.ok locLondonZero
    from mkLocation_london]
  rfl

/-! Claim C3: updateNotification replaces the rules. -/

/-- The notification that `updateNotification` stores in place of
`notifSample` when replacing its rules by a single snow clause at
timestamp 2000 with random suffix "xyz". -/
def notifSnowUpdated : Notification :=
  ⟨⟨⟨0, 0⟩, 2000, "xyz"⟩, locLondonZero, [⟨"snow", none⟩], true, 2000⟩

/-- Claim C3, counterexample to the claim as stated: after updating the
rules of the stored notification, the collection no longer contains any
notification with the original id — the replacement carries a freshly
generated one. -/
theorem C3_update_drops_original_id :
    updateNotification [notifSample] notifSample.id [⟨"snow", none⟩] 2000 "xyz" =
      .ok [notifSnowUpdated] ∧
    ¬ ∃ m, m ∈ [notifSnowUpdated] ∧ m.id = notifSample.id := by
  refine ⟨rfl, ?_⟩
  rintro ⟨m, hm, hid⟩
  rw [List.mem_singleton.1 hm] at hid
  exact absurd hid (by decide)

/-- Claim C3 (amended): updateNotification on a collection containing the
target id replaces that notification in place by one with the same bound
location, the same active state and the new rules as its clause list;
its id however is freshly generated from the location id, the wall-clock
timestamp and a new random suffix, so the original id is not preserved. -/
theorem C3_update_preserves_location_and_active_state :
    ∀ (notifs : List Notification) (nid : NotifId) (rules : List NotificationRule)
      (nowTs : ℤ) (rand : String) (i : ℕ) (old : Notification)
      (result : List Notification),
    notifs.findIdx? (fun n => decide (n.id = nid)) = some i →
    notifs.get? i = some old →
    updateNotification notifs nid rules nowTs rand = .ok result →
    result = notifs.set i
      ⟨⟨old.location.id, nowTs, rand⟩, old.location, rules, old.isActive, nowTs⟩ := by
  intro notifs nid rules nowTs rand i old result hfind hget hupd
  simp only [updateNotification, hfind, hget] at hupd
  cases hmk : mkNotification (some old.location) rules nowTs rand with
  | error e =>
    rw [hmk] at hupd
    exact absurd hupd (by simp)
  | ok newN =>
    have hshape := mkNotification_ok_shape _ _ _ _ _ hmk
    subst hshape
    simp only [hmk, Except.ok.injEq] at hupd
    cases hact : old.isActive
    · simp only [hact, Bool.false_eq_true, if_false] at hupd
      exact hupd.symm
    · simp only [hact, if_true] at hupd
      exact hupd.symm

/-- Claim C3, witness: the amended theorem applied to the singleton
collection holding the sample notification. -/
theorem C3_update_witness :
    ([notifSample].findIdx? (fun n => decide (n.id = notifSample.id)) = some 0) ∧
    ([notifSample].get? 0 = some notifSample) ∧
    (updateNotification [notifSample] notifSample.id [⟨"snow", none⟩] 2000 "xyz" =
      .ok [notifSnowUpdated]) ∧
    ([notifSnowUpdated] = [notifSample].set 0
      ⟨⟨notifSample.location.id, 2000, "xyz"⟩, notifSample.location,
        [⟨"snow", none⟩], notifSample.isActive, 2000⟩) :=
  ⟨rfl, rfl, rfl,
   C3_update_preserves_location_and_active_state [notifSample] notifSample.id
     [⟨"snow", none⟩] 2000 "xyz" 0 notifSample [notifSnowUpdated] rfl rfl rfl⟩

/-! Claims C2, C4, C7: the day-bucketing algorithm. -/

/-- The fallback guard of the bucketing loop is always satisfied for an
unprocessed date: re-parsing a stored date string can never produce the
current date string when the current one is not stored, so the
"no better time available" check never blocks the fallback. -/
theorem fallback_guard_always_true (processed : List ℤ) (d : ℤ)
    (hmem : d ∉ processed) :
    (processed.length = 0 ∨
      ¬ ((processed.any fun pd => decide (pd = d)) = true)) := by
  cases processed with
  | nil => exact Or.inl rfl
  | cons p ps =>
    refine Or.inr ?_
    intro hany
    rcases List.any_eq_true.1 hany with ⟨x, hx, hxd⟩
    exact hmem ((of_decide_eq_true hxd) ▸ hx)

/-- Derived characterization of one loop iteration: thanks to the vacuous
fallback guard, the first entry of every not-yet-processed date is pushed,
whatever its hour. -/
theorem dailyLoop_cons_eq (tz nowDay : ℤ) (item : ForecastItem)
    (rest acc : List ForecastItem) (processed : List ℤ) :
    dailyLoop tz nowDay (item :: rest) acc processed =
      if acc.length = 0 ∧ localDay tz item.dt = nowDay ∧ localHour tz item.dt < 6 then
        dailyLoop tz nowDay rest acc processed
      else if localDay tz item.dt ∈ processed then
        (if 5 ≤ acc.length then acc else dailyLoop tz nowDay rest acc processed)
      else
        (if 5 ≤ (acc ++ [item]).length then acc ++ [item]
         else dailyLoop tz nowDay rest (acc ++ [item])
           (processed ++ [localDay tz item.dt])) := by
  simp only [dailyLoop]
  by_cases hskip : acc.length = 0 ∧ localDay tz item.dt = nowDay ∧ localHour tz item.dt < 6
  · rw [if_pos hskip, if_pos hskip]
  · rw [if_neg hskip, if_neg hskip]
    by_cases hmem : localDay tz item.dt ∈ processed
    · rw [if_neg (not_not_intro hmem), if_pos hmem]
    · rw [if_pos hmem, if_neg hmem]
      by_cases hwin : 9 ≤ localHour tz item.dt ∧ localHour tz item.dt ≤ 18
      · rw [if_pos hwin]
      · rw [if_neg hwin, if_pos (fallback_guard_always_true processed _ hmem)]

/-- Pushing an entry of an unprocessed date keeps the selected dates
pairwise distinct. -/
theorem nodup_push (tz : ℤ) (acc : List ForecastItem) (item : ForecastItem)
    (processed : List ℤ)
    (hsub : ∀ a ∈ acc, localDay tz a.dt ∈ processed)
    (hnd : (acc.map fun it => localDay tz it.dt).Nodup)
    (hmem : localDay tz item.dt ∉ processed) :
    ((acc ++ [item]).map fun it => localDay tz it.dt).Nodup := by
  rw [List.map_append, List.map_singleton, List.nodup_append]
  refine ⟨hnd, List.nodup_singleton _, ?_⟩
  intro x hx hxd
  rcases List.mem_map.1 hx with ⟨a, ha, rfl⟩
  rw [List.mem_singleton] at hxd
  exact hmem (hxd ▸ hsub a ha)

/-- Main invariant of the bucketing loop: starting from an accumulator of
at most 4 entries whose dates are pairwise distinct and all recorded in
the processed set, the loop returns at most 5 entries with pairwise
distinct dates. -/
theorem dailyLoop_length_nodup (tz nowDay : ℤ) :
    ∀ (items acc : List ForecastItem) (processed : List ℤ),
    acc.length ≤ 4 →
    (∀ a ∈ acc, localDay tz a.dt ∈ processed) →
    ((acc.map fun it => localDay tz it.dt).Nodup) →
    ((dailyLoop tz nowDay items acc processed).length ≤ 5 ∧
     ((dailyLoop tz nowDay items acc processed).map fun it => localDay tz it.dt).Nodup) := by
  intro items
  induction items with
  | nil =>
    intro acc processed hlen hsub hnd
    rw [dailyLoop]
    exact ⟨by omega, hnd⟩
  | cons item rest ih =>
    intro acc processed hlen hsub hnd
    rw [dailyLoop_cons_eq]
    by_cases hskip : acc.length = 0 ∧ localDay tz item.dt = nowDay ∧ localHour tz item.dt < 6
    · rw [if_pos hskip]
      exact ih acc processed hlen hsub hnd
    · rw [if_neg hskip]
      by_cases hmem : localDay tz item.dt ∈ processed
      · rw [if_pos hmem, if_neg (by omega)]
        exact ih acc processed hlen hsub hnd
      · rw [if_neg hmem]
        have hlen2 : (acc ++ [item]).length = acc.length + 1 := by
          simp
        have hnd2 := nodup_push tz acc item processed hsub hnd hmem
        by_cases hfull : 5 ≤ (acc ++ [item]).length
        · rw [if_pos hfull]
          exact ⟨by omega, hnd2⟩
        · rw [if_neg hfull]
          refine ih (acc ++ [item]) (processed ++ [localDay tz item.dt]) (by omega) ?_ hnd2
          intro a ha
          rcases List.mem_append.1 ha with h | h
          · exact List.mem_append.2 (Or.inl (hsub a h))
          · rw [List.mem_singleton] at h
            subst h
            exact List.mem_append.2 (Or.inr (List.mem_singleton.2 rfl))

/-- Claim C7 (confirmed): constructing a forecast from a null payload, a
payload with an absent entry list, or a payload with an empty entry list
always fails; for every constructed forecast the day-bucketed sequence
holds at most 5 entries whose local calendar dates are pairwise
distinct. -/
theorem C7_bucketing_bounds :
    (∃ e, mkForecast none = .error e) ∧
    (∀ city, ∃ e, mkForecast (some ⟨none, city⟩) = .error e) ∧
    (∀ city, ∃ e, mkForecast (some ⟨some [], city⟩) = .error e) ∧
    (∀ tz now f, (getDailyForecast tz now f).length ≤ 5 ∧
      ((getDailyForecast tz now f).map fun it => localDay tz it.dt).Nodup) := by
  refine ⟨⟨_, rfl⟩, fun city => ⟨_, rfl⟩, fun city => ⟨_, rfl⟩, ?_⟩
  intro tz now f
  exact dailyLoop_length_nodup tz (localDay tz now) f.items [] []
    (by simp) (by simp) (by simp)

/-- The forecast entry at hour 6 of day 100 (unix day number), the first
entry of its calendar date. -/
def itHour6 : ForecastItem := ⟨100 * 86400 + 6 * 3600, 10⟩

/-- A forecast entry at hour 12 (inside the preferred 9 to 18 window) of
the same day 100. -/
def itHour12 : ForecastItem := ⟨100 * 86400 + 12 * 3600, 20⟩

/-- A two-entry payload for a single calendar day: hour 6 first, the
midday entry second. -/
def forecastSameDay : Forecast := ⟨[itHour6, itHour12], "London", "GB"⟩

/-- Claim C2 (code bug): the payload for day 100 holds an hour-6 entry
followed by an hour-12 entry. The claim, the spec and the source comments
say the hour-12 entry (local hour within 9 to 18) must represent the day,
but the code selects the hour-6 entry: the fallback guard of the loop is
vacuously true, so the first entry of each date always wins regardless of
its hour. Current time is day 0, so the skip of early hours of the
current day does not interfere. -/
theorem C2_first_entry_of_day_selected_regardless_of_hour :
    localDay 0 itHour6.dt = localDay 0 itHour12.dt ∧
    localHour 0 itHour6.dt = 6 ∧
    localHour 0 itHour12.dt = 12 ∧
    getDailyForecast 0 0 forecastSameDay = [itHour6] :=
  ⟨by decide, by decide, by decide, by decide⟩

/-- The forecast entry at hour 3 of day 100. -/
def itEarly : ForecastItem := ⟨100 * 86400 + 3 * 3600, 5⟩

/-- The forecast entry at hour 12 of day 101. -/
def itNextNoon : ForecastItem := ⟨101 * 86400 + 12 * 3600, 7⟩

/-- A two-day payload whose first entry sits before 06:00 of day 100. -/
def forecastTwoDays : Forecast := ⟨[itEarly, itNextNoon], "London", "GB"⟩

/-- Claim C4, counterexample to the claim as stated: the same forecast
payload bucketed at two different wall-clock instants gives different
sequences — when invoked during day 100 the leading 03:00 entry of that
day is skipped, when invoked during day 0 it is kept. -/
theorem C4_selection_depends_on_wall_clock :
    getDailyForecast 0 (100 * 86400) forecastTwoDays = [itNextNoon] ∧
    getDailyForecast 0 0 forecastTwoDays = [itEarly, itNextNoon] ∧
    getDailyForecast 0 (100 * 86400) forecastTwoDays ≠
      getDailyForecast 0 0 forecastTwoDays :=
  ⟨by decide, by decide, by decide⟩

/-- Claim C4 (amended): the day-bucketed selection is a pure function of
the forecast payload and the current local calendar date — two
evaluations on identical input invoked at wall-clock times that fall on
the same local calendar day return identical entry sequences. Evaluations
on different calendar days can differ, because entries of the current day
before 06:00 are skipped while the accumulator is empty. -/
theorem C4_selection_pure_given_current_day :
    ∀ (tz now1 now2 : ℤ) (f : Forecast), localDay tz now1 = localDay tz now2 →
      getDailyForecast tz now1 f = getDailyForecast tz now2 f := by
  intro tz now1 now2 f h
  rw [getDailyForecast, getDailyForecast, h]

/-- Claim C4, witness: two invocation times one hour apart inside day 0. -/
theorem C4_selection_witness :
    localDay 0 3600 = localDay 0 7200 ∧
    getDailyForecast 0 3600 forecastTwoDays = getDailyForecast 0 7200 forecastTwoDays :=
  ⟨by decide, C4_selection_pure_given_current_day 0 3600 7200 forecastTwoDays (by decide)⟩

end WeatherApp
